import Mathlib

/-!
Verification of the statement-normalization and ratio-computation engine of
the finapp repository (`finance.py`, `main.py`), via a shallow embedding.

Modelling conventions:
* Python floats are idealized as the tagged type `FVal`: an exact rational,
  NaN, or an infinity (the sign of an infinity is irrelevant to every guard
  in the code, so it is collapsed).  Overflow of finite arithmetic to
  infinity and decimal-to-binary rounding are not modelled.
* Heterogeneous cell values (None | float | int | str | nested array) are
  the tagged type `Cell`.
* A pandas DataFrame is row labels, column labels and a row-major grid.
* Fallible Python operations (`float(x)` raising) return `Except`.
-/

/-- Idealized Python float: finite rational, NaN, or infinity. -/
inductive FVal where
  | finite (q : ℚ)
  | nan
  | inf
deriving DecidableEq

/-- `math.isnan`. -/
def FVal.isnan : FVal → Bool
  | FVal.nan => true
  | _ => false

/-- `math.isinf`. -/
def FVal.isinf : FVal → Bool
  | FVal.inf => true
  | _ => false

/-- Heterogeneous provider cell value: None, float, int, string, or array. -/
inductive Cell where
  | pynone
  | float (v : FVal)
  | int (n : ℤ)
  | str (s : String)
  | arr (l : List Cell)

/-- Digit characters to the natural number they denote (most significant first). -/
def digitsToNat (l : List Char) : ℕ :=
  l.foldl (fun a c => a * 10 + (c.toNat - 48)) 0

def allDigits (l : List Char) : Bool :=
  l.all (fun c => c.isDigit)

/-- Exponent part after the `e` of a float literal: optional sign, then digits. -/
def parseExp (l : List Char) : Option ℤ :=
  match l with
  | '+' :: r => if !r.isEmpty && allDigits r then some ((digitsToNat r : ℤ)) else none
  | '-' :: r => if !r.isEmpty && allDigits r then some (-(digitsToNat r : ℤ)) else none
  | r => if !r.isEmpty && allDigits r then some ((digitsToNat r : ℤ)) else none

/-- Mantissa of a float literal: `digits`, `digits.digits`, `.digits` or `digits.`. -/
def parseMantissa (l : List Char) : Option ℚ :=
  match l.splitOn '.' with
  | [ip] => if !ip.isEmpty && allDigits ip then some ((digitsToNat ip : ℚ)) else none
  | [ip, fp] =>
      if allDigits ip && allDigits fp && (!ip.isEmpty || !fp.isEmpty) then
        some ((digitsToNat ip : ℚ) + (digitsToNat fp : ℚ) / (10 : ℚ) ^ fp.length)
      else none
  | _ => none

/-- Unsigned decimal float literal with optional exponent (input already lowercased). -/
def parseDecimalChars (l : List Char) : Option ℚ :=
  match l.splitOn 'e' with
  | [m] => parseMantissa m
  | [m, e] =>
      match parseMantissa m, parseExp e with
      | some q, some z => some (q * (10 : ℚ) ^ z)
      | _, _ => none
  | _ => none

/-- Body of a Python float literal after the optional sign was stripped:
`inf` / `infinity` / `nan` (case-insensitive) or a decimal literal.
Value is exact (no binary rounding); digit-group underscores are not modelled. -/
def pyFloatSigned (sgn : ℚ) (body : List Char) : Option FVal :=
  let low := body.map Char.toLower
  if low = "inf".toList || low = "infinity".toList then some FVal.inf
  else if low = "nan".toList then some FVal.nan
  else
    match parseDecimalChars low with
    | some q => some (FVal.finite (sgn * q))
    | none => none

/-- Strip leading and trailing whitespace from a character list
(`s.strip()`). -/
def stripWS (l : List Char) : List Char :=
  ((l.dropWhile Char.isWhitespace).reverse.dropWhile Char.isWhitespace).reverse

/-- Python `float(s)` on a string: strip whitespace, optional sign, then
a float literal.  `none` models a raised `ValueError`. -/
def pyFloatOfString (s : String) : Option FVal :=
  match stripWS s.data with
  | '+' :: r => pyFloatSigned 1 r
  | '-' :: r => pyFloatSigned (-1) r
  | r => pyFloatSigned 1 r

/-- Python `float(x)` on an arbitrary cell; `Except.error` models a raised
exception (TypeError for None and arrays, ValueError for bad strings). -/
def pyFloat : Cell → Except Unit FVal
  | Cell.pynone => Except.error ()
  | Cell.float v => Except.ok v
  | Cell.int n => Except.ok (FVal.finite (n : ℚ))
  | Cell.str s =>
      match pyFloatOfString s with
      | some v => Except.ok v
      | none => Except.error ()
  | Cell.arr _ => Except.error ()

/-- `finance._clean_scalar`: None stays None; try `float(x)`, any exception
becomes None; a NaN or infinite result becomes None; otherwise the float. -/
def _clean_scalar (x : Cell) : Option FVal :=
  match x with
  | Cell.pynone => none
  | _ =>
      match pyFloat x with
      | Except.error _ => none
      | Except.ok v => if v.isnan || v.isinf then none else some v

/-- `finance._is_valid_number`: `_clean_scalar(x) is not None`. -/
def _is_valid_number (x : Cell) : Bool :=
  (_clean_scalar x).isSome

/-- `pd.isna` on a scalar cell: True exactly for None and float NaN. -/
def isna : Cell → Bool
  | Cell.pynone => true
  | Cell.float v => v.isnan
  | _ => false

mutual
/-- `np.array(val).flatten()` on one element: arrays flatten recursively. -/
def flattenCell : Cell → List Cell
  | Cell.arr l => flattenList l
  | c => [c]

/-- `np.array(val).flatten()` on a list of elements. -/
def flattenList : List Cell → List Cell
  | [] => []
  | c :: rest => flattenCell c ++ flattenList rest
end

/-- The `_extract_scalar` closure inside `finance._get_item`: arrays are
flattened; an empty or all-NA array gives None; otherwise the first non-NA
element is cleaned.  Non-array values are cleaned directly. -/
def _extract_scalar (val : Cell) : Option FVal :=
  match val with
  | Cell.arr l =>
      let arr := flattenList l
      if arr.isEmpty || arr.all isna then none
      else
        match arr.filter (fun c => !(isna c)) with
        | [] => none
        | c :: _ => _clean_scalar c
  | _ => _clean_scalar val

/-- A pandas DataFrame: row labels, column labels, row-major grid.
Well-formedness (each row has one cell per column, one row per label) is
assumed where a claim needs it. -/
structure DataFrame where
  index : List String
  columns : List String
  data : List (List Cell)

/-- `pd.DataFrame()`. -/
def emptyDF : DataFrame := ⟨[], [], []⟩

/-- `df.empty`: true iff either axis has length zero. -/
def DataFrame.empty (df : DataFrame) : Bool :=
  df.index.isEmpty || df.columns.isEmpty

/-- `len(df)`: the number of rows. -/
def DataFrame.nrows (df : DataFrame) : ℕ := df.data.length

/-- The rows of a DataFrame as (label, cells) pairs. -/
def rowsOf (df : DataFrame) : List (String × List Cell) :=
  df.index.zip df.data

/-- `df.loc[label].iloc[0]`: for a unique label, the first-column cell of its
row; for a duplicated label, `df.loc` yields a sub-DataFrame and `.iloc[0]`
its first row (a Series, i.e. an array cell).  `none` models the KeyError on
an absent label (call sites guard against it). -/
def locCell (df : DataFrame) (label : String) : Option Cell :=
  match (List.range df.index.length).filter
      (fun i => df.index.getD i "" == label) with
  | [] => none
  | [i] => some ((df.data.getD i []).getD 0 Cell.pynone)
  | i :: _ :: _ => some (Cell.arr (df.data.getD i []))

/-- Case-insensitive containment `label.lower() in idx.lower()`: prefix test. -/
def chPrefix : List Char → List Char → Bool
  | [], _ => true
  | _ :: _, [] => false
  | a :: as, b :: bs => a == b && chPrefix as bs

/-- Case-insensitive containment: contiguous sublist test. -/
def chInfix (n : List Char) : List Char → Bool
  | [] => n.isEmpty
  | b :: bs => chPrefix n (b :: bs) || chInfix n bs

/-- `s.lower()` as a character list. -/
def lowerChars (s : String) : List Char :=
  s.data.map Char.toLower

/-- Python `label.lower() in idx.lower()`. -/
def containsCI (label idx : String) : Bool :=
  chInfix (lowerChars label) (lowerChars idx)

/-- Candidate loop of `finance._get_item`: for each candidate label, try the
exact match, then the first case-insensitive containment match; a usable
(non-None) scalar returns immediately, otherwise the next candidate is tried. -/
def getItemLoop (df : DataFrame) : List String → Option FVal
  | [] => none
  | label :: rest =>
      let exact : Option FVal :=
        if df.index.contains label then
          match locCell df label with
          | some cell => _extract_scalar cell
          | none => none
        else none
      match exact with
      | some s => some s
      | none =>
          let fuzzy : Option FVal :=
            match df.index.filter (fun idx => containsCI label idx) with
            | [] => none
            | m :: _ =>
                match locCell df m with
                | some cell => _extract_scalar cell
                | none => none
          match fuzzy with
          | some s => some s
          | none => getItemLoop df rest

/-- `finance._get_item`: None or empty table gives None, otherwise the
candidate loop. -/
def _get_item (df : Option DataFrame) (candidates : List String) : Option FVal :=
  match df with
  | none => none
  | some d => if d.empty then none else getItemLoop d candidates

/-- Lift a looked-up value (None or a float) back to a cell, to re-apply
`_clean_scalar` exactly as the Python code does. -/
def cellOfOpt : Option FVal → Cell
  | none => Cell.pynone
  | some v => Cell.float v

/-- `_is_valid_number` applied to a looked-up value. -/
def validO (o : Option FVal) : Bool :=
  _is_valid_number (cellOfOpt o)

/-- Python `x != 0` for a looked-up value: None, NaN and infinities all
compare unequal to 0; a finite float compares by value. -/
def neZeroO (o : Option FVal) : Bool :=
  match o with
  | some (FVal.finite q) => decide (q ≠ 0)
  | _ => true

/-- Python `x != 0` for a float. -/
def neZeroF (v : FVal) : Bool :=
  match v with
  | FVal.finite q => decide (q ≠ 0)
  | _ => true

/-- Extract the float under a guard that already ensured it is present. -/
def getF (o : Option FVal) : FVal := o.getD FVal.nan

/-- IEEE-style division on idealized floats.  The finite-by-zero branch is
unreachable in this development: every division in `compute_ratios` is
guarded by a `!= 0` test on its denominator (in Python it would raise
ZeroDivisionError). -/
def fdiv : FVal → FVal → FVal
  | FVal.nan, _ => FVal.nan
  | _, FVal.nan => FVal.nan
  | FVal.inf, FVal.inf => FVal.nan
  | FVal.inf, FVal.finite _ => FVal.inf
  | FVal.finite _, FVal.inf => FVal.finite 0
  | FVal.finite a, FVal.finite b =>
      if b = 0 then (if a = 0 then FVal.nan else FVal.inf)
      else FVal.finite (a / b)

/-- `x - 1.0` on idealized floats. -/
def fsub1 : FVal → FVal
  | FVal.finite a => FVal.finite (a - 1)
  | FVal.nan => FVal.nan
  | FVal.inf => FVal.inf

/-- One guarded ratio of `compute_ratios`: both operands valid and the
denominator nonzero, else the metric stays None.  The source orders the two
validity conjuncts differently per metric; conjunction is commutative and
effect-free here. -/
def guardedDiv (num den : Option FVal) : Option FVal :=
  if validO num && validO den && neZeroO den then
    _clean_scalar (Cell.float (fdiv (getF num) (getF den)))
  else none

/-- `price_hist["Close"]` as a column of cells; `none` models the KeyError
when no column is labeled Close. -/
def closeCol (df : DataFrame) : Option (List Cell) :=
  match (List.range df.columns.length).find?
      (fun j => df.columns.getD j "" == "Close") with
  | some j => some (df.data.map (fun r => r.getD j Cell.pynone))
  | none => none

/-- `metrics["price"]` branch: last Close cell cleaned; any exception
(missing column, no rows) gives None. -/
def priceOf (ph : DataFrame) : Option FVal :=
  match closeCol ph with
  | none => none
  | some col =>
      match col.getLast? with
      | none => none
      | some cell => _clean_scalar cell

/-- The Close-column part of the one-year-return computation: `float` both
the last Close and the one at position `-252` (252nd from the end), guard the
latter against zero, then clean `px_now / px_1y - 1.0`.  A conversion
exception gives None. -/
def oyrFromCol (col : List Cell) : Option FVal :=
  match pyFloat (col.getD (col.length - 1) Cell.pynone),
        pyFloat (col.getD (col.length - 252) Cell.pynone) with
  | Except.ok px_now, Except.ok px_1y =>
      if neZeroF px_1y then
        _clean_scalar (Cell.float (fsub1 (fdiv px_now px_1y)))
      else none
  | _, _ => none

/-- `metrics["one_year_return"]` branch: only when the series has more than
252 rows; a missing Close column (KeyError) gives None. -/
def oneYearReturnOf (ph : DataFrame) : Option FVal :=
  if ph.nrows > 252 then
    match closeCol ph with
    | none => none
    | some col => oyrFromCol col
  else none

/-- The final safety pass `metrics[k] = _clean_scalar(v)`. -/
def finalClean (o : Option FVal) : Option FVal :=
  match o with
  | none => none
  | some v => _clean_scalar (Cell.float v)

/-- `finance.compute_ratios`.  The metrics dict is modelled as an
association list in the insertion order of the source.  The `cashflow`
argument is accepted and unused, as in the source. -/
def compute_ratios (income balance cashflow price_hist : Option DataFrame) :
    List (String × Option FVal) :=
  let _ := cashflow
  let revenue := _get_item income ["Total Revenue", "TotalRevenue", "Revenue"]
  let net_income :=
    _get_item income ["Net Income", "NetIncome", "Net Income Common Stockholders"]
  let total_equity :=
    _get_item balance ["Total Stockholder Equity", "Total Equity", "TotalEquity"]
  let total_debt :=
    _get_item balance ["Total Debt", "TotalDebt", "Long Term Debt", "LongTermDebt"]
  let current_assets :=
    _get_item balance ["Total Current Assets", "Current Assets", "CurrentAssets"]
  let current_liab :=
    _get_item balance
      ["Total Current Liabilities", "Current Liabilities", "CurrentLiabilities"]
  let net_margin := guardedDiv net_income revenue
  let roe := guardedDiv net_income total_equity
  let debt_to_equity := guardedDiv total_debt total_equity
  let current_ratio := guardedDiv current_assets current_liab
  let price :=
    match price_hist with
    | some ph => if ph.empty then none else priceOf ph
    | none => none
  let one_year_return :=
    match price_hist with
    | some ph => if ph.empty then none else oneYearReturnOf ph
    | none => none
  [("revenue", finalClean revenue),
   ("net_income", finalClean net_income),
   ("net_margin", finalClean net_margin),
   ("roe", finalClean roe),
   ("debt_to_equity", finalClean debt_to_equity),
   ("current_ratio", finalClean current_ratio),
   ("one_year_return", finalClean one_year_return),
   ("price", finalClean price)]

/-- JSON-safe serialized cell: null, number, or string. -/
inductive JVal where
  | jnull
  | jnum (q : ℚ)
  | jstr (s : String)
deriving DecidableEq

/-- A cleaned scalar to JSON: a finite float becomes a number, None becomes
null (`_clean_scalar` never yields NaN or an infinity, so the remaining
branch is unreachable but kept total as null). -/
def jvalOfClean : Option FVal → JVal
  | some (FVal.finite q) => JVal.jnum q
  | _ => JVal.jnull

/-- The truth test of `if pd.isna(v):` on a cell.  For a scalar cell it is
the scalar NA test.  For a container cell `pd.isna` returns a boolean array
whose truth test raises ValueError unless the array has at most one element
(`Except.error` models that exception; a zero-element container's test is
modelled as false, a one-element container's as the element's NA test).  A
pandas Series cell, whose truth test always raises, is not separately
modelled. -/
def isnaTruth (v : Cell) : Except Unit Bool :=
  match v with
  | Cell.arr l =>
      match flattenList l with
      | [] => Except.ok false
      | [c] => Except.ok (isna c)
      | _ => Except.error ()
  | c => Except.ok (isna c)

/-- The serialized value of a cell whose NA truth test does not raise: NA to
null, numeric through `_clean_scalar`, array flattened (empty/all-NA to
null, else the first element cleaned — the source takes `arr[0]`, not the
first non-NA), anything else to its string form.
`statement_cell_ok` proves `statement_cell` returns exactly this on every
cell whose NA test is unambiguous. -/
def statement_cell_val (v : Cell) : JVal :=
  if isna v then JVal.jnull
  else
    match v with
    | Cell.float f => jvalOfClean (_clean_scalar (Cell.float f))
    | Cell.int n => jvalOfClean (_clean_scalar (Cell.int n))
    | Cell.arr l =>
        let arr := flattenList l
        if arr.isEmpty || arr.all isna then JVal.jnull
        else jvalOfClean (_clean_scalar (arr.headD Cell.pynone))
    | Cell.str s => JVal.jstr s
    | Cell.pynone => JVal.jnull

/-- Per-cell branch of `finance.dataframe_to_statement`.  The first statement
is `if pd.isna(v):`, whose truth test raises ValueError on a container cell
with more than one element — so the source's own array branch is reachable
only for containers of at most one element. -/
def statement_cell (v : Cell) : Except Unit JVal :=
  match isnaTruth v with
  | Except.error e => Except.error e
  | Except.ok true => Except.ok JVal.jnull
  | Except.ok false =>
      match v with
      | Cell.float f => Except.ok (jvalOfClean (_clean_scalar (Cell.float f)))
      | Cell.int n => Except.ok (jvalOfClean (_clean_scalar (Cell.int n)))
      | Cell.arr l =>
          let arr := flattenList l
          if arr.isEmpty || arr.all isna then Except.ok JVal.jnull
          else Except.ok (jvalOfClean (_clean_scalar (arr.headD Cell.pynone)))
      | Cell.str s => Except.ok (JVal.jstr s)
      | Cell.pynone => Except.ok JVal.jnull

/-- True iff a cell's NA truth test cannot raise (it is a scalar or a
container of at most one element). -/
def cellSafe : Cell → Bool
  | Cell.arr l =>
      match flattenList l with
      | [] => true
      | [_] => true
      | _ => false
  | _ => true

/-- One row of the serializer's cell loop, left to right, propagating the
first raised exception. -/
def mapCells : List Cell → Except Unit (List JVal)
  | [] => Except.ok []
  | c :: rest =>
      match statement_cell c with
      | Except.error e => Except.error e
      | Except.ok j =>
          match mapCells rest with
          | Except.error e => Except.error e
          | Except.ok js => Except.ok (j :: js)

/-- The serializer's row loop over the first `k` cells of each row,
propagating the first raised exception. -/
def statementRows (k : ℕ) : List (List Cell) → Except Unit (List (List JVal))
  | [] => Except.ok []
  | r :: rest =>
      match mapCells (r.take k) with
      | Except.error e => Except.error e
      | Except.ok row =>
          match statementRows k rest with
          | Except.error e => Except.error e
          | Except.ok rows => Except.ok (row :: rows)

/-- The JSON-friendly statement structure returned by
`dataframe_to_statement`. -/
structure StatementDict where
  columns : List String
  index : List String
  data : List (List JVal)
deriving DecidableEq

/-- The serialized structure for a non-empty table on which no cell's NA
test raises: the first `max_cols` columns with every retained cell cleaned
in place. -/
def statementOfVal (df : DataFrame) (max_cols : ℕ) : StatementDict :=
  let cols := df.columns.take max_cols
  { columns := cols
    index := df.index
    data := df.data.map (fun r => (r.take cols.length).map statement_cell_val) }

/-- `finance.dataframe_to_statement`: None for a missing or empty table,
otherwise the serialized structure; `Except.error` models the ValueError
raised by `if pd.isna(v):` on a multi-element container cell. -/
def dataframe_to_statement (odf : Option DataFrame) (max_cols : ℕ) :
    Except Unit (Option StatementDict) :=
  match odf with
  | none => Except.ok none
  | some df =>
      if df.empty then Except.ok none
      else
        match statementRows (df.columns.take max_cols).length df.data with
        | Except.error e => Except.error e
        | Except.ok rows =>
            Except.ok (some { columns := df.columns.take max_cols
                              index := df.index
                              data := rows })

/-- First not-yet-used position (counting from `k`) whose label satisfies
`pred`; models a `for idx, lab in enumerate(...)` loop with `break`. -/
def findUnusedAux (used : List ℕ) (pred : String → Bool) :
    ℕ → List String → Option ℕ
  | _, [] => none
  | k, lab :: rest =>
      if !(used.contains k) && pred lab then some k
      else findUnusedAux used pred (k + 1) rest

/-- First unused position in `idxs` whose label satisfies `pred`. -/
def findUnused (idxs : List String) (used : List ℕ) (pred : String → Bool) :
    Option ℕ :=
  findUnusedAux used pred 0 idxs

/-- `if found: ordered_rows.append(lab); used.add(idx)` on positions. -/
def appendFound (acc : List ℕ) (r : Option ℕ) : List ℕ :=
  match r with
  | some i => acc ++ [i]
  | none => acc

/-- One priority keyword of `main.order_statement_rows`, on row positions:
append the first unused exact (case-insensitive) match; then, unless some
already-ordered label equals the keyword case-insensitively, append the
first unused containment match. -/
def stepPriority (idxs : List String) (acc : List ℕ) (p : String) : List ℕ :=
  let acc1 :=
    appendFound acc
      (findUnused idxs acc (fun lab => lowerChars lab == lowerChars p))
  if acc1.any (fun i => lowerChars (idxs.getD i "") == lowerChars p) then acc1
  else appendFound acc1 (findUnused idxs acc1 (fun lab => containsCI p lab))

/-- Row-position order produced by `order_statement_rows`: the priority
passes, then every remaining position in original order. -/
def orderPositions (idxs : List String) (ps : List String) : List ℕ :=
  let acc := ps.foldl (stepPriority idxs) []
  acc ++ (List.range idxs.length).filter (fun i => !(acc.contains i))

/-- `df.loc[labels]` for a list of labels: for each label in turn, every row
carrying that label, in original table order. -/
def locList (df : DataFrame) (labels : List String) : DataFrame :=
  let rows := List.flatten (labels.map (fun l => (rowsOf df).filter (fun r => r.1 == l)))
  { index := rows.map Prod.fst, columns := df.columns, data := rows.map Prod.snd }

/-- `main.order_statement_rows`: empty or missing table gives an empty
table; otherwise the priority-ordered labels (filtered by membership, a
no-op) select rows via `df.loc`. -/
def order_statement_rows (odf : Option DataFrame) (priorities : List String) :
    DataFrame :=
  match odf with
  | none => emptyDF
  | some df =>
      if df.empty then emptyDF
      else
        let pos := orderPositions df.index priorities
        let ordered_rows := pos.map (fun i => df.index.getD i "")
        let filtered := ordered_rows.filter (fun r => df.index.contains r)
        if filtered.isEmpty then df else locList df filtered

/-- Modelled from the spec: the row order described by the Statement Orderer
contract — for each keyword, an exact case-insensitive match among
not-yet-consumed labels, else a substring case-insensitive match among
not-yet-consumed labels, appending the first match found; unmatched rows
follow in original relative order.  (Used only to compare the spec's
described algorithm with the source's.) -/
def specStep (idxs : List String) (acc : List ℕ) (p : String) : List ℕ :=
  match findUnused idxs acc (fun lab => lowerChars lab == lowerChars p) with
  | some i => acc ++ [i]
  | none =>
      match findUnused idxs acc (fun lab => containsCI p lab) with
      | some i => acc ++ [i]
      | none => acc

/-- Modelled from the spec: the full label order of the Statement Orderer as
described by the spec sentence for claim C8. -/
def specReorderIndex (idxs : List String) (ps : List String) : List String :=
  let acc := ps.foldl (specStep idxs) []
  (acc ++ (List.range idxs.length).filter (fun i => !(acc.contains i))).map
    (fun i => idxs.getD i "")

/-- True iff an optional metric value is absent or a finite float. -/
def optFinite : Option FVal → Bool
  | none => true
  | some (FVal.finite _) => true
  | some _ => false

/-- Shorthand for a finite float cell in concrete test tables. -/
def fc (n : ℤ) : Cell := Cell.float (FVal.finite (n : ℚ))

/-- Concrete income statement used by witnesses. -/
def wIncome : DataFrame :=
  ⟨["Total Revenue", "Net Income"], ["2023"], [[fc 1000], [fc 100]]⟩

/-- Concrete balance sheet used by witnesses. -/
def wBalance : DataFrame :=
  ⟨["Total Stockholder Equity", "Total Debt", "Total Current Assets",
    "Total Current Liabilities"], ["2023"],
   [[fc 500], [fc 200], [fc 300], [fc 150]]⟩

/-- Concrete balance sheet whose equity lookup resolves to zero. -/
def wBalanceZero : DataFrame :=
  ⟨["Total Stockholder Equity", "Total Debt", "Total Current Assets",
    "Total Current Liabilities"], ["2023"],
   [[fc 0], [fc 200], [fc 300], [fc 150]]⟩

/-- Concrete 253-session price history with Close prices
100, 60, 110 × 250, 120. -/
def wPh253 : DataFrame :=
  ⟨List.replicate 253 "d", ["Close"],
   ([[fc 100], [fc 60]] ++ List.replicate 250 [fc 110]) ++ [[fc 120]]⟩

/-- Concrete 253-session price history whose Close at position 1 is 100 and
whose last Close is 120. -/
def wPh253' : DataFrame :=
  ⟨List.replicate 253 "d", ["Close"],
   ([[fc 90], [fc 100]] ++ List.replicate 250 [fc 110]) ++ [[fc 120]]⟩

/-- Concrete 252-session price history. -/
def wPh252 : DataFrame :=
  ⟨List.replicate 252 "d", ["Close"], List.replicate 252 [fc 100]⟩

/-! ## Theorems -/

theorem getItemLoop_exact {df : DataFrame} {label : String} {rest : List String}
    {v : FVal} (hmem : label ∈ df.index)
    (hcell : (locCell df label).bind _extract_scalar = some v) :
    getItemLoop df (label :: rest) = some v := by
  rcases hc : locCell df label with _ | cell
  · rw [hc] at hcell; simp at hcell
  · rw [hc] at hcell
    simp only [Option.some_bind] at hcell
    simp [getItemLoop, hmem, hc, hcell]

/-- **C1.** The Scalar Sanitizer never returns NaN or an infinity: the result
is absent exactly when the input is None, fails float conversion, or converts
to NaN or an infinity; otherwise it is the finite float value of the input. -/
theorem C1_clean_scalar_finite_or_absent (x : Cell) :
    optFinite (_clean_scalar x) = true ∧
    _clean_scalar x =
      (match pyFloat x with
       | Except.ok (FVal.finite q) => some (FVal.finite q)
       | _ => none) := by
  cases x with
  | pynone => exact ⟨rfl, rfl⟩
  | float v => cases v <;> exact ⟨rfl, rfl⟩
  | int n => exact ⟨rfl, rfl⟩
  | str s =>
      rcases h : pyFloatOfString s with _ | v
      · simp [_clean_scalar, pyFloat, h, optFinite]
      · cases v <;> simp [_clean_scalar, pyFloat, h, optFinite, FVal.isnan, FVal.isinf]
  | arr l => exact ⟨rfl, rfl⟩

/-- **C10.** The Scalar Sanitizer accepts numeric strings: any string that
float conversion parses to a finite value sanitizes to that value, while
`"nan"`, `"inf"` and unparsable strings sanitize to absent. -/
theorem C10_numeric_strings (s : String) (v : ℚ)
    (h : pyFloatOfString s = some (FVal.finite v)) :
    _clean_scalar (Cell.str s) = some (FVal.finite v) ∧
    _clean_scalar (Cell.str "123") = some (FVal.finite 123) ∧
    _clean_scalar (Cell.str "4.5e3") = some (FVal.finite 4500) ∧
    _clean_scalar (Cell.str "nan") = none ∧
    _clean_scalar (Cell.str "inf") = none ∧
    _clean_scalar (Cell.str "abc") = none := by
  refine ⟨?_, ?_, ?_, rfl, rfl, rfl⟩
  · simp [_clean_scalar, pyFloat, h, FVal.isnan, FVal.isinf]
  · have h1 : _clean_scalar (Cell.str "123") =
        some (FVal.finite (1 * ((123 : ℕ) : ℚ))) := rfl
    rw [h1]; norm_num
  · have h2 : _clean_scalar (Cell.str "4.5e3") =
        some (FVal.finite
          (1 * ((((4 : ℕ) : ℚ) + ((5 : ℕ) : ℚ) / (10 : ℚ) ^ (1 : ℕ)) *
            (10 : ℚ) ^ (((3 : ℕ) : ℤ))))) := rfl
    rw [h2]; norm_num

theorem C10_numeric_strings_witness :
    _clean_scalar (Cell.str "123") = some (FVal.finite 123) :=
  (C10_numeric_strings "123" 123
    (by have h : pyFloatOfString "123" = some (FVal.finite (1 * ((123 : ℕ) : ℚ))) := rfl
        rw [h]; norm_num)).1

/-- **C6.** Statement Lookup returns absent for a missing table and for any
empty table (zero rows or zero columns), for every candidate list. -/
theorem C6_lookup_empty_absent (d : DataFrame) (cands : List String)
    (hd : d.empty = true) :
    _get_item none cands = none ∧ _get_item (some d) cands = none := by
  exact ⟨rfl, by simp [_get_item, hd]⟩

theorem C6_lookup_empty_absent_witness :
    _get_item none ["Total Revenue", "Revenue"] = none ∧
    _get_item (some emptyDF) ["Total Revenue", "Revenue"] = none :=
  C6_lookup_empty_absent emptyDF ["Total Revenue", "Revenue"] (by decide)

/-- **C5.** An exact row-label match takes priority over a substring match:
with rows "Revenue" and "Total Revenue Adjusted" in either order, looking up
`["Revenue"]` returns the sanitized value of the "Revenue" row whenever that
value is present. -/
theorem C5_exact_beats_substring (c0 : String) (cs : List String)
    (r1 r2 : List Cell) (v : FVal)
    (h : _extract_scalar (r1.getD 0 Cell.pynone) = some v) :
    _get_item
      (some (DataFrame.mk ["Revenue", "Total Revenue Adjusted"] (c0 :: cs) [r1, r2]))
      ["Revenue"] = some v ∧
    _get_item
      (some (DataFrame.mk ["Total Revenue Adjusted", "Revenue"] (c0 :: cs) [r2, r1]))
      ["Revenue"] = some v := by
  constructor
  · show getItemLoop
      (DataFrame.mk ["Revenue", "Total Revenue Adjusted"] (c0 :: cs) [r1, r2])
      ["Revenue"] = some v
    refine getItemLoop_exact (by simp) ?_
    have hc : locCell
        (DataFrame.mk ["Revenue", "Total Revenue Adjusted"] (c0 :: cs) [r1, r2])
        "Revenue" = some (r1.getD 0 Cell.pynone) := rfl
    rw [hc]; simpa using h
  · show getItemLoop
      (DataFrame.mk ["Total Revenue Adjusted", "Revenue"] (c0 :: cs) [r2, r1])
      ["Revenue"] = some v
    refine getItemLoop_exact (by simp) ?_
    have hc : locCell
        (DataFrame.mk ["Total Revenue Adjusted", "Revenue"] (c0 :: cs) [r2, r1])
        "Revenue" = some (r1.getD 0 Cell.pynone) := rfl
    rw [hc]; simpa using h

theorem C5_exact_beats_substring_witness :
    _get_item
      (some (DataFrame.mk ["Revenue", "Total Revenue Adjusted"] ["2023"]
        [[fc 7], [fc 9]]))
      ["Revenue"] = some (FVal.finite 7) ∧
    _get_item
      (some (DataFrame.mk ["Total Revenue Adjusted", "Revenue"] ["2023"]
        [[fc 9], [fc 7]]))
      ["Revenue"] = some (FVal.finite 7) :=
  C5_exact_beats_substring "2023" [] [fc 7] [fc 9] (FVal.finite 7) (by decide)

/-! Key-by-key reading of the `compute_ratios` association list; each holds
by unfolding (the lookup walks literal keys only). -/

theorem lookup_revenue (inc bal cf ph : Option DataFrame) :
    (compute_ratios inc bal cf ph).lookup "revenue" =
      some (finalClean (_get_item inc ["Total Revenue", "TotalRevenue", "Revenue"])) :=
  rfl

theorem lookup_net_income (inc bal cf ph : Option DataFrame) :
    (compute_ratios inc bal cf ph).lookup "net_income" =
      some (finalClean (_get_item inc
        ["Net Income", "NetIncome", "Net Income Common Stockholders"])) :=
  rfl

theorem lookup_net_margin (inc bal cf ph : Option DataFrame) :
    (compute_ratios inc bal cf ph).lookup "net_margin" =
      some (finalClean (guardedDiv
        (_get_item inc ["Net Income", "NetIncome", "Net Income Common Stockholders"])
        (_get_item inc ["Total Revenue", "TotalRevenue", "Revenue"]))) :=
  rfl

theorem lookup_roe (inc bal cf ph : Option DataFrame) :
    (compute_ratios inc bal cf ph).lookup "roe" =
      some (finalClean (guardedDiv
        (_get_item inc ["Net Income", "NetIncome", "Net Income Common Stockholders"])
        (_get_item bal ["Total Stockholder Equity", "Total Equity", "TotalEquity"]))) :=
  rfl

theorem lookup_debt_to_equity (inc bal cf ph : Option DataFrame) :
    (compute_ratios inc bal cf ph).lookup "debt_to_equity" =
      some (finalClean (guardedDiv
        (_get_item bal ["Total Debt", "TotalDebt", "Long Term Debt", "LongTermDebt"])
        (_get_item bal ["Total Stockholder Equity", "Total Equity", "TotalEquity"]))) :=
  rfl

theorem lookup_current_ratio (inc bal cf ph : Option DataFrame) :
    (compute_ratios inc bal cf ph).lookup "current_ratio" =
      some (finalClean (guardedDiv
        (_get_item bal ["Total Current Assets", "Current Assets", "CurrentAssets"])
        (_get_item bal
          ["Total Current Liabilities", "Current Liabilities", "CurrentLiabilities"]))) :=
  rfl

theorem lookup_price (inc bal cf ph : Option DataFrame) :
    (compute_ratios inc bal cf ph).lookup "price" =
      some (finalClean (match ph with
        | some p => if p.empty then none else priceOf p
        | none => none)) :=
  rfl

theorem lookup_one_year_return (inc bal cf ph : Option DataFrame) :
    (compute_ratios inc bal cf ph).lookup "one_year_return" =
      some (finalClean (match ph with
        | some p => if p.empty then none else oneYearReturnOf p
        | none => none)) :=
  rfl

/-- **C2.** The Ratio Engine on resolved inputs revenue=1000, net_income=100,
equity=500, debt=200, current_assets=300, current_liabilities=150 yields
net_margin=0.1, roe=0.2, debt_to_equity=0.4, current_ratio=2.0; with equity
resolving to 0 (same remaining inputs), roe and debt_to_equity are absent and
every other metric is unchanged. -/
theorem C2_ratio_engine (inc bal bal2 cf ph : Option DataFrame)
    (hrev : _get_item inc ["Total Revenue", "TotalRevenue", "Revenue"] =
      some (FVal.finite 1000))
    (hni : _get_item inc
      ["Net Income", "NetIncome", "Net Income Common Stockholders"] =
      some (FVal.finite 100))
    (heq : _get_item bal ["Total Stockholder Equity", "Total Equity", "TotalEquity"] =
      some (FVal.finite 500))
    (hdebt : _get_item bal
      ["Total Debt", "TotalDebt", "Long Term Debt", "LongTermDebt"] =
      some (FVal.finite 200))
    (hca : _get_item bal ["Total Current Assets", "Current Assets", "CurrentAssets"] =
      some (FVal.finite 300))
    (hcl : _get_item bal
      ["Total Current Liabilities", "Current Liabilities", "CurrentLiabilities"] =
      some (FVal.finite 150))
    (heq2 : _get_item bal2
      ["Total Stockholder Equity", "Total Equity", "TotalEquity"] =
      some (FVal.finite 0))
    (hdebt2 : _get_item bal2
      ["Total Debt", "TotalDebt", "Long Term Debt", "LongTermDebt"] =
      _get_item bal ["Total Debt", "TotalDebt", "Long Term Debt", "LongTermDebt"])
    (hca2 : _get_item bal2
      ["Total Current Assets", "Current Assets", "CurrentAssets"] =
      _get_item bal ["Total Current Assets", "Current Assets", "CurrentAssets"])
    (hcl2 : _get_item bal2
      ["Total Current Liabilities", "Current Liabilities", "CurrentLiabilities"] =
      _get_item bal
      ["Total Current Liabilities", "Current Liabilities", "CurrentLiabilities"]) :
    (compute_ratios inc bal cf ph).lookup "net_margin" =
      some (some (FVal.finite (1 / 10))) ∧
    (compute_ratios inc bal cf ph).lookup "roe" =
      some (some (FVal.finite (1 / 5))) ∧
    (compute_ratios inc bal cf ph).lookup "debt_to_equity" =
      some (some (FVal.finite (2 / 5))) ∧
    (compute_ratios inc bal cf ph).lookup "current_ratio" =
      some (some (FVal.finite 2)) ∧
    (compute_ratios inc bal2 cf ph).lookup "roe" = some none ∧
    (compute_ratios inc bal2 cf ph).lookup "debt_to_equity" = some none ∧
    (compute_ratios inc bal2 cf ph).lookup "revenue" =
      (compute_ratios inc bal cf ph).lookup "revenue" ∧
    (compute_ratios inc bal2 cf ph).lookup "net_income" =
      (compute_ratios inc bal cf ph).lookup "net_income" ∧
    (compute_ratios inc bal2 cf ph).lookup "net_margin" =
      (compute_ratios inc bal cf ph).lookup "net_margin" ∧
    (compute_ratios inc bal2 cf ph).lookup "current_ratio" =
      (compute_ratios inc bal cf ph).lookup "current_ratio" ∧
    (compute_ratios inc bal2 cf ph).lookup "price" =
      (compute_ratios inc bal cf ph).lookup "price" ∧
    (compute_ratios inc bal2 cf ph).lookup "one_year_return" =
      (compute_ratios inc bal cf ph).lookup "one_year_return" := by
  simp only [lookup_revenue, lookup_net_income, lookup_net_margin, lookup_roe,
    lookup_debt_to_equity, lookup_current_ratio, lookup_price,
    lookup_one_year_return]
  simp only [hrev, hni, heq, hdebt, hca, hcl, heq2, hdebt2, hca2, hcl2]
  norm_num [guardedDiv, validO, _is_valid_number, _clean_scalar, cellOfOpt, pyFloat,
    FVal.isnan, FVal.isinf, neZeroO, getF, fdiv, finalClean]

theorem C2_ratio_engine_witness :
    (compute_ratios (some wIncome) (some wBalance) none none).lookup "net_margin" =
      some (some (FVal.finite (1 / 10))) ∧
    (compute_ratios (some wIncome) (some wBalance) none none).lookup "roe" =
      some (some (FVal.finite (1 / 5))) ∧
    (compute_ratios (some wIncome) (some wBalance) none none).lookup "debt_to_equity" =
      some (some (FVal.finite (2 / 5))) ∧
    (compute_ratios (some wIncome) (some wBalance) none none).lookup "current_ratio" =
      some (some (FVal.finite 2)) ∧
    (compute_ratios (some wIncome) (some wBalanceZero) none none).lookup "roe" =
      some none ∧
    (compute_ratios (some wIncome) (some wBalanceZero) none none).lookup
      "debt_to_equity" = some none ∧
    (compute_ratios (some wIncome) (some wBalanceZero) none none).lookup "revenue" =
      (compute_ratios (some wIncome) (some wBalance) none none).lookup "revenue" ∧
    (compute_ratios (some wIncome) (some wBalanceZero) none none).lookup "net_income" =
      (compute_ratios (some wIncome) (some wBalance) none none).lookup "net_income" ∧
    (compute_ratios (some wIncome) (some wBalanceZero) none none).lookup "net_margin" =
      (compute_ratios (some wIncome) (some wBalance) none none).lookup "net_margin" ∧
    (compute_ratios (some wIncome) (some wBalanceZero) none none).lookup
      "current_ratio" =
      (compute_ratios (some wIncome) (some wBalance) none none).lookup
      "current_ratio" ∧
    (compute_ratios (some wIncome) (some wBalanceZero) none none).lookup "price" =
      (compute_ratios (some wIncome) (some wBalance) none none).lookup "price" ∧
    (compute_ratios (some wIncome) (some wBalanceZero) none none).lookup
      "one_year_return" =
      (compute_ratios (some wIncome) (some wBalance) none none).lookup
      "one_year_return" :=
  C2_ratio_engine (some wIncome) (some wBalance) (some wBalanceZero) none none
    (by decide) (by decide) (by decide) (by decide) (by decide) (by decide)
    (by decide) (by decide) (by decide) (by decide)

theorem oyr_compute (ph : DataFrame) (col : List Cell)
    (hcol : closeCol ph = some col) (hlen : ph.nrows = 253)
    (hclen : col.length = 253)
    (h1y : col.getD 1 Cell.pynone = Cell.float (FVal.finite 100))
    (hnow : col.getD 252 Cell.pynone = Cell.float (FVal.finite 120)) :
    oneYearReturnOf ph = some (FVal.finite ((120 : ℚ) / 100 - 1)) := by
  unfold oneYearReturnOf
  rw [hlen, hcol]
  show (if 253 > 252 then oyrFromCol col else none) =
    some (FVal.finite ((120 : ℚ) / 100 - 1))
  rw [if_pos (show 253 > 252 by norm_num)]
  unfold oyrFromCol
  rw [hclen]
  rw [show (253 : ℕ) - 1 = 252 from rfl, show (253 : ℕ) - 252 = 1 from rfl]
  rw [h1y, hnow]
  norm_num [pyFloat, neZeroF, fdiv, fsub1, _clean_scalar, FVal.isnan, FVal.isinf]

/-- **C3 (amended).** With exactly 252 price rows `one_year_return` is absent;
with 253 rows the return is computed from the Close price at position `-252`
(the entry at index 1, i.e. 251 sessions before the latest), so a 253-entry
series whose index-1 Close is 100 and whose last Close is 120 yields 0.2. -/
theorem C3_one_year_return (inc bal cf : Option DataFrame) (ph ph2 : DataFrame)
    (col : List Cell)
    (h252 : ph.nrows = 252)
    (hne : ph2.empty = false)
    (hcol : closeCol ph2 = some col)
    (hlen : ph2.nrows = 253)
    (hclen : col.length = 253)
    (h1y : col.getD 1 Cell.pynone = Cell.float (FVal.finite 100))
    (hnow : col.getD 252 Cell.pynone = Cell.float (FVal.finite 120)) :
    (compute_ratios inc bal cf (some ph)).lookup "one_year_return" = some none ∧
    (compute_ratios inc bal cf (some ph2)).lookup "one_year_return" =
      some (some (FVal.finite (1 / 5))) := by
  simp only [lookup_one_year_return]
  constructor
  · rcases hE : ph.empty <;> simp [hE, oneYearReturnOf, h252, finalClean]
  · show some (finalClean (if ph2.empty = true then none else oneYearReturnOf ph2)) =
      some (some (FVal.finite (1 / 5)))
    rw [hne]
    simp only [Bool.false_eq_true, if_false]
    rw [oyr_compute ph2 col hcol hlen hclen h1y hnow]
    norm_num [finalClean, _clean_scalar, pyFloat, FVal.isnan, FVal.isinf]

set_option maxRecDepth 400000 in
/-- The claim's stated 253-entry example pins only the first and last Close
prices, but the code divides by the Close at index 1, not index 0: with
Close prices 100, 60, …, 120 the result is 1.0, not the claimed 0.2. -/
theorem C3_one_year_return_counterexample :
    (compute_ratios none none none (some wPh253)).lookup "one_year_return" =
      some (some (FVal.finite 1)) ∧
    some (some (FVal.finite (1 : ℚ))) ≠ some (some (FVal.finite (1 / 5))) := by
  constructor
  · have h : (compute_ratios none none none (some wPh253)).lookup "one_year_return" =
        some (some (FVal.finite ((120 : ℚ) / 60 - 1))) := rfl
    rw [h]; norm_num
  · simp only [ne_eq, Option.some.injEq, FVal.finite.injEq]
    norm_num

set_option maxRecDepth 400000 in
theorem C3_one_year_return_witness :
    (compute_ratios none none none (some wPh252)).lookup "one_year_return" =
      some none ∧
    (compute_ratios none none none (some wPh253')).lookup "one_year_return" =
      some (some (FVal.finite (1 / 5))) :=
  C3_one_year_return none none none wPh252 wPh253'
    (([fc 90, fc 100] ++ List.replicate 250 (fc 110)) ++ [fc 120])
    rfl rfl rfl rfl rfl rfl rfl

/-- **C9.** `compute_ratios` always returns exactly the eight metric keys, and
every value is either absent or a finite float — never NaN or infinite. -/
theorem C9_ratioset_shape (inc bal cf ph : Option DataFrame) :
    (compute_ratios inc bal cf ph).map Prod.fst =
      ["revenue", "net_income", "net_margin", "roe", "debt_to_equity",
       "current_ratio", "one_year_return", "price"] ∧
    (compute_ratios inc bal cf ph).all (fun kv => optFinite kv.2) = true := by
  have hfin : ∀ o : Option FVal, optFinite (finalClean o) = true := by
    intro o
    rcases o with _ | v
    · rfl
    · rcases v with q | _ | _ <;> rfl
  exact ⟨rfl, by simp [compute_ratios, List.all, hfin]⟩

theorem getD_map_of_lt {α β : Type} (f : α → β) (d : β) (d' : α) :
    ∀ (l : List α) (i : ℕ), i < l.length → (l.map f).getD i d = f (l.getD i d')
  | a :: t, 0, _ => rfl
  | a :: t, i + 1, h =>
      getD_map_of_lt f d d' t i (by simpa using h)
  | [], i, h => absurd h (by simp)

theorem getD_take_of_lt {α : Type} (d : α) :
    ∀ (l : List α) (k i : ℕ), i < k → (l.take k).getD i d = l.getD i d
  | [], k, i, _ => by simp
  | a :: t, k + 1, 0, _ => rfl
  | a :: t, k + 1, i + 1, h =>
      getD_take_of_lt d t k i (Nat.lt_of_succ_lt_succ h)
  | a :: t, 0, i, h => absurd h (Nat.not_lt_zero i)

theorem statement_cell_ok (c : Cell) (h : cellSafe c = true) :
    statement_cell c = Except.ok (statement_cell_val c) := by
  cases c with
  | arr l =>
      rcases hf : flattenList l with _ | ⟨a, _ | ⟨b, t⟩⟩
      · simp [statement_cell, statement_cell_val, isnaTruth, isna, hf]
      · have harr : isna (Cell.arr l) = false := rfl
        rcases ha : isna a with _ | _ <;>
          simp [statement_cell, statement_cell_val, isnaTruth, hf, ha, harr]
      · rw [cellSafe, hf] at h
        simp at h
  | pynone => rfl
  | float v => rcases hv : v.isnan with _ | _ <;>
      simp [statement_cell, statement_cell_val, isnaTruth, isna, hv]
  | int n => rfl
  | str s => rfl

theorem mapCells_ok (l : List Cell) (h : ∀ c ∈ l, cellSafe c = true) :
    mapCells l = Except.ok (l.map statement_cell_val) := by
  induction l with
  | nil => rfl
  | cons c rest ih =>
      rw [mapCells, statement_cell_ok c (h c (List.mem_cons_self c rest)),
        ih (fun x hx => h x (List.mem_cons_of_mem c hx))]
      rfl

theorem statementRows_ok (k : ℕ) (rows : List (List Cell))
    (h : ∀ r ∈ rows, ∀ c ∈ r.take k, cellSafe c = true) :
    statementRows k rows =
      Except.ok (rows.map (fun r => (r.take k).map statement_cell_val)) := by
  induction rows with
  | nil => rfl
  | cons r rest ih =>
      rw [statementRows, mapCells_ok _ (h r (List.mem_cons_self r rest)),
        ih (fun x hx => h x (List.mem_cons_of_mem r hx))]
      rfl

/-- **C7 (amended).** The Statement Serializer returns absent for a missing
or empty table; for a non-empty table none of whose retained cells is a
container with more than one element (whose NA truth test would raise),
every output row has one entry per retained column, and a NaN cell among the
retained columns serializes to null in place. -/
theorem C7_serializer (df e : DataFrame) (m i j : ℕ) (row : List JVal)
    (hwf : ∀ r ∈ df.data, r.length = df.columns.length)
    (hne : df.empty = false)
    (he : e.empty = true)
    (hsafe : ∀ r ∈ df.data, ∀ c ∈ r.take (df.columns.take m).length,
      cellSafe c = true)
    (hi : i < df.data.length)
    (hj : j < (df.columns.take m).length)
    (hnan : (df.data.getD i []).getD j Cell.pynone = Cell.float FVal.nan)
    (hrow : row ∈ (statementOfVal df m).data) :
    dataframe_to_statement none m = Except.ok none ∧
    dataframe_to_statement (some e) m = Except.ok none ∧
    dataframe_to_statement (some df) m = Except.ok (some (statementOfVal df m)) ∧
    row.length = (df.columns.take m).length ∧
    ((statementOfVal df m).data.getD i []).getD j (JVal.jstr "") = JVal.jnull := by
  have hklen : (df.columns.take m).length ≤ df.columns.length := by
    simp [List.length_take]
  refine ⟨rfl, by simp [dataframe_to_statement, he], ?_, ?_, ?_⟩
  · have hred : dataframe_to_statement (some df) m =
        (if df.empty = true then Except.ok none
         else match statementRows (df.columns.take m).length df.data with
           | Except.error e => Except.error e
           | Except.ok rows =>
               Except.ok (some { columns := df.columns.take m
                                 index := df.index
                                 data := rows })) := rfl
    rw [hred, hne]
    simp only [Bool.false_eq_true, if_false]
    rw [statementRows_ok (df.columns.take m).length df.data hsafe]
    rfl
  · simp only [statementOfVal] at hrow
    obtain ⟨r, hr, rfl⟩ := List.mem_map.mp hrow
    have hrlen := hwf r hr
    simp [List.length_take, hrlen]
  · simp only [statementOfVal]
    rw [getD_map_of_lt _ [] [] df.data i hi]
    have hrmem : df.data.getD i [] ∈ df.data := by
      rw [List.getD_eq_getElem df.data [] hi]
      exact List.getElem_mem hi
    have hrlen := hwf _ hrmem
    have hj2 : j < ((df.data.getD i []).take (df.columns.take m).length).length := by
      rw [List.length_take]
      exact lt_min hj (by omega)
    rw [getD_map_of_lt statement_cell_val (JVal.jstr "") Cell.pynone _ j hj2]
    rw [getD_take_of_lt Cell.pynone _ _ j hj]
    rw [hnan]
    rfl

theorem C7_serializer_witness :
    dataframe_to_statement none 3 = Except.ok none ∧
    dataframe_to_statement (some emptyDF) 3 = Except.ok none ∧
    dataframe_to_statement
      (some (DataFrame.mk ["r1"] ["c1", "c2"] [[Cell.float FVal.nan, fc 5]])) 3 =
      Except.ok (some (statementOfVal
        (DataFrame.mk ["r1"] ["c1", "c2"] [[Cell.float FVal.nan, fc 5]]) 3)) ∧
    List.length [JVal.jnull, JVal.jnum 5] =
      ((DataFrame.mk ["r1"] ["c1", "c2"]
        [[Cell.float FVal.nan, fc 5]]).columns.take 3).length ∧
    ((statementOfVal (DataFrame.mk ["r1"] ["c1", "c2"]
        [[Cell.float FVal.nan, fc 5]]) 3).data.getD 0 []).getD 0 (JVal.jstr "") =
      JVal.jnull :=
  C7_serializer (DataFrame.mk ["r1"] ["c1", "c2"] [[Cell.float FVal.nan, fc 5]])
    emptyDF 3 0 0 [JVal.jnull, JVal.jnum 5]
    (by decide) rfl rfl (by decide) (by decide) (by decide) rfl (by decide)

/-- A non-empty table with a NaN cell among the retained columns does not
always produce an output grid: a second retained cell holding a two-element
array makes `if pd.isna(v):` raise ValueError, so the serializer raises
instead of returning a structure with the NaN serialized to null. -/
theorem C7_serializer_counterexample :
    dataframe_to_statement
      (some (DataFrame.mk ["r1"] ["c1", "c2"]
        [[Cell.float FVal.nan, Cell.arr [fc 1, fc 2]]])) 3 =
      Except.error () := rfl

/-! Supporting lemmas for the Statement Orderer: the position list it builds
is a permutation of `range n`, and row selection by distinct labels is a
permutation of the rows. -/

theorem findUnusedAux_spec (used : List ℕ) (pred : String → Bool) :
    ∀ (k : ℕ) (l : List String) (i : ℕ), findUnusedAux used pred k l = some i →
      used.contains i = false ∧ i < k + l.length := by
  intro k l
  induction l generalizing k with
  | nil => intro i h; simp [findUnusedAux] at h
  | cons lab rest ih =>
      intro i h
      rw [findUnusedAux] at h
      by_cases hc : (!(used.contains k) && pred lab) = true
      · rw [if_pos hc] at h
        obtain rfl : k = i := by simpa using h
        simp only [Bool.and_eq_true, Bool.not_eq_true'] at hc
        exact ⟨hc.1, by simp only [List.length_cons]; omega⟩
      · rw [if_neg hc] at h
        obtain ⟨h1, h2⟩ := ih (k + 1) i h
        exact ⟨h1, by simp only [List.length_cons]; omega⟩

theorem findUnused_spec (idxs : List String) (used : List ℕ) (pred : String → Bool)
    (i : ℕ) (h : findUnused idxs used pred = some i) :
    i ∉ used ∧ i < idxs.length := by
  obtain ⟨h1, h2⟩ := findUnusedAux_spec used pred 0 idxs i h
  refine ⟨?_, by simpa using h2⟩
  intro hm
  simp [List.contains, List.elem_eq_mem, hm] at h1

theorem appendFound_preserves (idxs : List String) (acc : List ℕ)
    (pred : String → Bool)
    (h : acc.Nodup ∧ ∀ x ∈ acc, x < idxs.length) :
    (appendFound acc (findUnused idxs acc pred)).Nodup ∧
      ∀ x ∈ appendFound acc (findUnused idxs acc pred), x < idxs.length := by
  rcases hf : findUnused idxs acc pred with _ | i
  · simpa [appendFound, hf] using h
  · obtain ⟨hni, hilt⟩ := findUnused_spec idxs acc pred i hf
    constructor
    · simp [appendFound, List.nodup_append, h.1, List.disjoint_singleton]
      intro hm; exact hni hm
    · intro x hx
      simp [appendFound] at hx
      rcases hx with hx | rfl
      · exact h.2 x hx
      · exact hilt

theorem stepPriority_preserves (idxs : List String) (p : String) (acc : List ℕ)
    (h : acc.Nodup ∧ ∀ x ∈ acc, x < idxs.length) :
    (stepPriority idxs acc p).Nodup ∧
      ∀ x ∈ stepPriority idxs acc p, x < idxs.length := by
  have h1 := appendFound_preserves idxs acc
    (fun lab => lowerChars lab == lowerChars p) h
  simp only [stepPriority]
  split
  · exact h1
  · exact appendFound_preserves idxs _ (fun lab => containsCI p lab) h1

theorem foldl_step_preserves (idxs : List String) (ps : List String)
    (acc : List ℕ) (h : acc.Nodup ∧ ∀ x ∈ acc, x < idxs.length) :
    (ps.foldl (stepPriority idxs) acc).Nodup ∧
      ∀ x ∈ ps.foldl (stepPriority idxs) acc, x < idxs.length := by
  induction ps generalizing acc with
  | nil => simpa using h
  | cons p rest ih => exact ih _ (stepPriority_preserves idxs p acc h)

theorem append_filter_perm (n : ℕ) (acc : List ℕ) (hnd : acc.Nodup)
    (hlt : ∀ x ∈ acc, x < n) :
    (acc ++ (List.range n).filter (fun i => !(acc.contains i))).Perm
      (List.range n) := by
  have hnd2 : (acc ++ (List.range n).filter (fun i => !(acc.contains i))).Nodup := by
    rw [List.nodup_append]
    refine ⟨hnd, (List.nodup_range n).filter _, ?_⟩
    intro a ha hb
    have := (List.mem_filter.mp hb).2
    simp [List.contains, List.elem_eq_mem] at this
    exact this ha
  rw [List.perm_ext_iff_of_nodup hnd2 (List.nodup_range n)]
  intro a
  simp only [List.mem_append, List.mem_filter, List.mem_range, List.contains,
    List.elem_eq_mem, Bool.not_eq_true', decide_eq_false_iff_not]
  constructor
  · rintro (h | ⟨h1, _⟩)
    · exact hlt a h
    · exact h1
  · intro h
    by_cases hm : a ∈ acc
    · exact Or.inl hm
    · exact Or.inr ⟨h, hm⟩

theorem orderPositions_perm (idxs : List String) (ps : List String) :
    (orderPositions idxs ps).Perm (List.range idxs.length) := by
  have hP := foldl_step_preserves idxs ps [] ⟨List.nodup_nil, by simp⟩
  exact append_filter_perm idxs.length _ hP.1 hP.2

theorem filter_key_singleton {α β : Type} [BEq α] [LawfulBEq α]
    (rows : List (α × β)) (hnd : (rows.map Prod.fst).Nodup) (kv : α × β)
    (hm : kv ∈ rows) :
    rows.filter (fun r => r.1 == kv.1) = [kv] := by
  induction rows with
  | nil => cases hm
  | cons hd tl ih =>
      simp only [List.map_cons, List.nodup_cons] at hnd
      rcases List.mem_cons.mp hm with rfl | hm2
      · simp only [List.filter_cons, beq_self_eq_true, if_pos]
        have htl : tl.filter (fun r => r.1 == kv.1) = [] := by
          rw [List.filter_eq_nil_iff]
          intro r hr
          simp only [beq_iff_eq]
          intro heq
          exact hnd.1 (heq ▸ List.mem_map_of_mem Prod.fst hr)
        rw [htl]
      · have hne : (hd.1 == kv.1) = false := by
          simp only [beq_eq_false_iff_ne, ne_eq]
          intro heq
          exact hnd.1 (heq ▸ List.mem_map_of_mem Prod.fst hm2)
        simp only [List.filter_cons, hne]
        exact ih hnd.2 hm2

theorem flatten_map_singleton {α β : Type} (l : List α) (f : α → β) :
    (l.map (fun x => [f x])).flatten = l.map f := by
  induction l with
  | nil => rfl
  | cons a t ih => simp [ih]

theorem map_getD_range_zip :
    ∀ (idxs : List String) (data : List (List Cell)),
      data.length = idxs.length →
      (List.range idxs.length).map
        (fun i => (idxs.getD i "", data.getD i [])) = idxs.zip data := by
  intro idxs
  induction idxs with
  | nil => intro data h; simp
  | cons a t ih =>
      intro data h
      rcases data with _ | ⟨b, d⟩
      · simp at h
      · simp only [List.length_cons, List.range_succ_eq_map, List.map_cons,
          List.map_map]
        have hd : d.length = t.length := by simpa using h
        have : (List.range t.length).map
            ((fun i => ((a :: t).getD i "", (b :: d).getD i [])) ∘ Nat.succ) =
            (List.range t.length).map (fun i => (t.getD i "", d.getD i [])) := by
          apply List.map_congr_left
          intro i _
          rfl
        rw [this, ih d hd]
        rfl


/-- For a non-empty table with distinct row labels, the Statement Orderer
materializes exactly the rows at the positions computed by `orderPositions`,
and its output row labels are those positions' labels in order. -/
theorem orderer_eval (df : DataFrame) (ps : List String)
    (hnodup : df.index.Nodup)
    (hwf : df.data.length = df.index.length)
    (hne : df.empty = false) :
    (order_statement_rows (some df) ps).index =
      (orderPositions df.index ps).map (fun i => df.index.getD i "") ∧
    rowsOf (order_statement_rows (some df) ps) =
      (orderPositions df.index ps).map
        (fun i => (df.index.getD i "", df.data.getD i [])) := by
  have hperm : (orderPositions df.index ps).Perm (List.range df.index.length) :=
    orderPositions_perm df.index ps
  have hlt : ∀ i ∈ orderPositions df.index ps, i < df.index.length :=
    fun i hi => List.mem_range.mp (hperm.mem_iff.mp hi)
  have hfilter : ((orderPositions df.index ps).map
      (fun i => df.index.getD i "")).filter (fun r => df.index.contains r) =
      (orderPositions df.index ps).map (fun i => df.index.getD i "") := by
    rw [List.filter_eq_self]
    intro r hr
    obtain ⟨i, hi, rfl⟩ := List.mem_map.mp hr
    have hmem : df.index.getD i "" ∈ df.index := by
      rw [List.getD_eq_getElem df.index "" (hlt i hi)]
      exact List.getElem_mem _
    simpa [List.contains, List.elem_eq_mem] using hmem
  have hn1 : 0 < df.index.length := by
    unfold DataFrame.empty at hne
    rcases hidx : df.index with _ | ⟨a, t⟩
    · rw [hidx] at hne; simp at hne
    · simp
  have hlen : ((orderPositions df.index ps).map
      (fun i => df.index.getD i "")).length = df.index.length := by
    rw [List.length_map, hperm.length_eq, List.length_range]
  have hnotE : ((orderPositions df.index ps).map
      (fun i => df.index.getD i "")).isEmpty = false := by
    rcases hml : (orderPositions df.index ps).map (fun i => df.index.getD i "")
      with _ | ⟨a, t⟩
    · rw [hml] at hlen; simp at hlen; omega
    · rfl
  have hsingle : ∀ i ∈ orderPositions df.index ps,
      (rowsOf df).filter (fun r => r.1 == df.index.getD i "") =
      [(df.index.getD i "", df.data.getD i [])] := by
    intro i hi
    have hkey : ((rowsOf df).map Prod.fst).Nodup := by
      rw [rowsOf, List.map_fst_zip df.index df.data (le_of_eq hwf.symm)]
      exact hnodup
    have hmem : (df.index.getD i "", df.data.getD i []) ∈ rowsOf df := by
      rw [rowsOf, ← map_getD_range_zip df.index df.data hwf]
      exact List.mem_map_of_mem _ (List.mem_range.mpr (hlt i hi))
    exact filter_key_singleton (rowsOf df) hkey _ hmem
  have hflat : (((orderPositions df.index ps).map
      (fun i => df.index.getD i "")).map
      (fun l => (rowsOf df).filter (fun r => r.1 == l))).flatten =
      (orderPositions df.index ps).map
        (fun i => (df.index.getD i "", df.data.getD i [])) := by
    rw [List.map_map]
    simp only [Function.comp_def]
    rw [List.map_congr_left (fun i hi => hsingle i hi)]
    exact flatten_map_singleton _ _
  have hredux : order_statement_rows (some df) ps =
      locList df ((orderPositions df.index ps).map (fun i => df.index.getD i "")) := by
    simp only [order_statement_rows, hne, Bool.false_eq_true, if_false,
      hfilter, hnotE]
  rw [hredux]
  constructor
  · show (((orderPositions df.index ps).map
        (fun i => df.index.getD i "")).map
        (fun l => (rowsOf df).filter (fun r => r.1 == l))).flatten.map Prod.fst = _
    rw [hflat, List.map_map]
    rfl
  · have hzip : rowsOf (locList df ((orderPositions df.index ps).map
        (fun i => df.index.getD i ""))) =
        ((((orderPositions df.index ps).map (fun i => df.index.getD i "")).map
          (fun l => (rowsOf df).filter (fun r => r.1 == l))).flatten.map
          Prod.fst).zip
        ((((orderPositions df.index ps).map (fun i => df.index.getD i "")).map
          (fun l => (rowsOf df).filter (fun r => r.1 == l))).flatten.map
          Prod.snd) := rfl
    rw [hzip, List.zip_map', hflat]
    simp

/-- **C4 (amended).** For every non-empty input table with pairwise-distinct
row labels, the Statement Orderer returns a table containing exactly the same
multiset of rows (each consumed at most once, none dropped or duplicated);
a missing or empty table yields the empty table. -/
theorem C4_orderer_multiset (df e : DataFrame) (ps : List String)
    (hnodup : df.index.Nodup)
    (hwf : df.data.length = df.index.length)
    (hne : df.empty = false)
    (he : e.empty = true) :
    (rowsOf (order_statement_rows (some df) ps)).Perm (rowsOf df) ∧
    order_statement_rows none ps = emptyDF ∧
    order_statement_rows (some e) ps = emptyDF := by
  refine ⟨?_, rfl, by simp [order_statement_rows, he]⟩
  rw [(orderer_eval df ps hnodup hwf hne).2]
  have hperm : (orderPositions df.index ps).Perm (List.range df.index.length) :=
    orderPositions_perm df.index ps
  have hall : (List.range df.index.length).map
      (fun i => (df.index.getD i "", df.data.getD i [])) = rowsOf df :=
    map_getD_range_zip df.index df.data hwf
  exact (hperm.map _).trans (hall ▸ List.Perm.refl _)

theorem C4_orderer_multiset_witness :
    (rowsOf (order_statement_rows
      (some (DataFrame.mk ["B", "A"] ["c"] [[fc 1], [fc 2]])) ["A"])).Perm
      (rowsOf (DataFrame.mk ["B", "A"] ["c"] [[fc 1], [fc 2]])) ∧
    order_statement_rows none ["A"] = emptyDF ∧
    order_statement_rows (some emptyDF) ["A"] = emptyDF :=
  C4_orderer_multiset (DataFrame.mk ["B", "A"] ["c"] [[fc 1], [fc 2]])
    emptyDF ["A"] (by decide) rfl rfl rfl

/-- With duplicated row labels the final `df.loc[list]` selection duplicates
rows: a 2-row table whose labels are both "X" comes back with 4 rows, so the
output is not the same multiset of rows as the input. -/
theorem C4_orderer_multiset_counterexample :
    (order_statement_rows (some (DataFrame.mk ["X", "X"] ["c"]
      [[fc 1], [fc 2]])) []).index = ["X", "X", "X", "X"] ∧
    ¬ (rowsOf (order_statement_rows (some (DataFrame.mk ["X", "X"] ["c"]
      [[fc 1], [fc 2]])) [])).Perm
      (rowsOf (DataFrame.mk ["X", "X"] ["c"] [[fc 1], [fc 2]])) := by
  refine ⟨by decide, fun h => ?_⟩
  have hl := h.length_eq
  rw [show (rowsOf (order_statement_rows (some (DataFrame.mk ["X", "X"] ["c"]
      [[fc 1], [fc 2]])) [])).length = 4 from rfl,
    show (rowsOf (DataFrame.mk ["X", "X"] ["c"] [[fc 1], [fc 2]])).length = 2
      from rfl] at hl
  exact absurd hl (by norm_num)

/-- **C8 (amended).** The Statement Orderer's output row order is exactly the
order computed by the priority passes (exact case-insensitive match among
unconsumed labels first; then, unless an already-appended label equals the
keyword case-insensitively, a substring match among unconsumed labels;
unmatched rows following in original relative order), and on rows
["Z","Total Revenue","A"] with priorities ["Total Revenue","Z"] the output
order is ["Total Revenue","Z","A"]. -/
theorem C8_orderer_priority (df : DataFrame) (ps : List String)
    (hnodup : df.index.Nodup) (hwf : df.data.length = df.index.length)
    (hne : df.empty = false) :
    (order_statement_rows (some df) ps).index =
      (orderPositions df.index ps).map (fun i => df.index.getD i "") ∧
    (order_statement_rows (some (DataFrame.mk ["Z", "Total Revenue", "A"] ["c"]
      [[fc 1], [fc 2], [fc 3]])) ["Total Revenue", "Z"]).index =
      ["Total Revenue", "Z", "A"] :=
  ⟨(orderer_eval df ps hnodup hwf hne).1, by decide⟩

theorem C8_orderer_priority_witness :
    (order_statement_rows (some (DataFrame.mk ["Z", "Total Revenue", "A"] ["c"]
      [[fc 1], [fc 2], [fc 3]])) ["Total Revenue", "Z"]).index =
      (orderPositions ["Z", "Total Revenue", "A"] ["Total Revenue", "Z"]).map
        (fun i => (["Z", "Total Revenue", "A"] : List String).getD i "") ∧
    (order_statement_rows (some (DataFrame.mk ["Z", "Total Revenue", "A"] ["c"]
      [[fc 1], [fc 2], [fc 3]])) ["Total Revenue", "Z"]).index =
      ["Total Revenue", "Z", "A"] :=
  C8_orderer_priority
    (DataFrame.mk ["Z", "Total Revenue", "A"] ["c"] [[fc 1], [fc 2], [fc 3]])
    ["Total Revenue", "Z"] (by decide) rfl rfl

/-- The claim says a keyword whose exact pass finds nothing always proceeds to
a substring pass over unconsumed labels; the code instead skips the substring
pass whenever any already-appended label equals the keyword
(case-insensitively).  On rows ["a","b","xay"] with priorities ["A","A","B"]
the claimed algorithm orders ["a","xay","b"] but the code keeps
["a","b","xay"]. -/
theorem C8_orderer_priority_counterexample :
    specReorderIndex ["a", "b", "xay"] ["A", "A", "B"] = ["a", "xay", "b"] ∧
    (order_statement_rows (some (DataFrame.mk ["a", "b", "xay"] ["c"]
      [[fc 1], [fc 2], [fc 3]])) ["A", "A", "B"]).index = ["a", "b", "xay"] ∧
    (["a", "b", "xay"] : List String) ≠ ["a", "xay", "b"] :=
  ⟨by decide, by decide, by decide⟩
